import Mathlib

/-!
Verification development for the rider-companion emergency-alert subsystem
(backend routes `emergency.js`, `auth.js`, model `EmergencyAlert.js`, user model
`User.js`, and `socketService.js`).

Conventions of the shallow embedding:
* user and alert ids are `Nat`; timestamps are `Nat` milliseconds since epoch;
* coordinates and distances are rationals `ℚ`;
* a mongoose collection is a `List` of documents; `findById`/`findOne` is
  `List.find?`; saving a loaded document writes it back over the record with
  the same id;
* fallible external calls (Twilio, `User.findById`) are `Except String`-valued
  parameters collected in an environment record, so that the try/catch
  structure of the source is translated explicitly;
* JavaScript truthiness of optional strings and numbers (`x || d`) is
  translated by `jsOrStr` / `jsOrNat` (`undefined`, `""` and `0` are falsy).
-/

namespace RiderSathi

/-- Alert lifecycle status, the `status` enum of `emergencyAlertSchema`. -/
inductive AlertStatus
  | active
  | responded
  | resolved
  | cancelled
deriving DecidableEq, Repr

/-- One entry of `alert.responders` (subdocument of `emergencyAlertSchema`). -/
structure Responder where
  user : Nat
  message : Option String
  estimatedArrival : Option Nat
deriving DecidableEq, Repr

/-- A persisted `EmergencyAlert` document, restricted to the fields the
emergency routes and the socket service read or write. -/
structure Alert where
  id : Nat
  user : Nat
  ty : String
  severity : String
  lat : ℚ
  lon : ℚ
  address : Option String
  description : Option String
  status : AlertStatus
  responders : List Responder
  autoResolved : Bool
  resolvedAt : Option Nat
  resolvedBy : Option Nat
  createdAt : Nat
deriving DecidableEq, Repr

/-- A reward ledger entry, restricted to the fields written by the emergency
response handlers (`rewardSchema`). -/
structure Reward where
  user : Nat
  activityType : String
  points : Nat
  relatedActivity : Nat
deriving DecidableEq, Repr

/-- The alerts collection. -/
abbrev AlertDb := List Alert

/-- Backend state touched by the respond handlers: the alerts collection and
the reward ledger. -/
structure St where
  alerts : AlertDb
  rewards : List Reward
deriving DecidableEq, Repr

/-- Translation of `EmergencyAlert.findById(i)`. -/
def findAlert (db : AlertDb) (i : Nat) : Option Alert :=
  db.find? (fun a => a.id == i)

/-- Translation of mongoose `save` on a loaded document: the modified document
is written back over every record carrying its id (ids are unique in mongo, so
this is the write-by-id semantics). -/
def updateAlert (db : AlertDb) (i : Nat) (f : Alert → Alert) : AlertDb :=
  db.map (fun a => if a.id == i then f a else a)

/-- JavaScript `s || d` for an optional string: `undefined` and `""` are falsy. -/
def jsOrStr : Option String → String → String
  | some s, d => if s = "" then d else s
  | none, d => d

/-- JavaScript `n || d` for an optional number: `undefined` and `0` are falsy. -/
def jsOrNat : Option Nat → Nat → Nat
  | some n, d => if n = 0 then d else n
  | none, d => d

/-- Body of a CreateAlert request (`{ type, severity, location, description }`). -/
structure CreateReq where
  ty : String
  severity : Option String
  latitude : ℚ
  longitude : ℚ
  address : Option String
  description : Option String
deriving DecidableEq, Repr

/-- Validation of POST /api/emergency/alert:
`!type || !location || !location.latitude || !location.longitude`
(note 0 is falsy in JavaScript, so zero coordinates are rejected). -/
def validCreateReq (r : CreateReq) : Bool :=
  r.ty != "" && r.latitude != 0 && r.longitude != 0

/-- Duplicate-suppression window of the HTTP create route: 5 minutes in ms. -/
def fiveMinutesMs : Nat := 5 * 60 * 1000

/-- Auto-resolve delay of `scheduleAutoResolve`: 30 minutes in ms. -/
def thirtyMinutesMs : Nat := 30 * 60 * 1000

/-- Predicate of the `recentAlert` query in POST /api/emergency/alert:
same user, status `active`, `createdAt ≥ Date.now() − 5 min`. -/
def isRecentActive (uid now : Nat) (a : Alert) : Bool :=
  a.user == uid && a.status == AlertStatus.active
    && decide (now - fiveMinutesMs ≤ a.createdAt)

/-- The alert document built by `new EmergencyAlert({...})` in both creation
entry points; `sev` is the severity actually stored (the HTTP route passes
`severity || "medium"`, the socket path relies on the schema default). -/
def mkAlert (newId uid : Nat) (r : CreateReq) (now : Nat) (sev : String) : Alert :=
  { id := newId, user := uid, ty := r.ty, severity := sev,
    lat := r.latitude, lon := r.longitude, address := r.address,
    description := r.description, status := .active, responders := [],
    autoResolved := false, resolvedAt := none, resolvedBy := none,
    createdAt := now }

/-- Fields of the reporter document read by `notifyContacts`
(`select("name phone emergencyContacts emergencyContact")`). -/
structure ContactDoc where
  emergencyContactPhones : List (Option String)
  emergencyContact : Option String

/-- Environment of the external notification path: configuration read from
`process.env` and the fallible external calls (`User.findById`, the dynamic
Twilio import, SMS / WhatsApp / voice-call sends). An `Except.error` value
models a rejected promise at that point of the source. -/
structure NotifyEnv where
  findUser : Nat → Except String (Option ContactDoc)
  twilioSid : Option String
  twilioToken : Option String
  twilioFrom : Option String
  whatsappFrom : Option String
  twilioInit : Except String Unit
  sendSMS : String → Except String Unit
  sendWhatsApp : String → Except String Unit
  placeCall : String → Except String Unit
  accidentServiceNumber : Option String
  breakdownServiceNumber : Option String
  towingNumber : Option String
  medicalServiceNumber : Option String
  fireServiceNumber : Option String

/-- JavaScript truthiness of an optional string. -/
def truthyStr : Option String → Bool
  | some s => s != ""
  | none => false

/-- Translation of the `serviceMap` lookup plus `serviceMap[alert.type] || ""`. -/
def serviceNumber (env : NotifyEnv) (ty : String) : String :=
  if ty = "accident" then jsOrStr env.accidentServiceNumber "1033"
  else if ty = "breakdown" then
    jsOrStr env.breakdownServiceNumber (jsOrStr env.towingNumber "")
  else if ty = "medical" then jsOrStr env.medicalServiceNumber "108"
  else if ty = "fire" then jsOrStr env.fireServiceNumber "101"
  else ""

/-- Gathering of contact phone numbers from the reporter document:
`emergencyContacts` entries with a truthy `phone`, then a truthy string-typed
`emergencyContact`. -/
def gatherContacts : Option ContactDoc → List String
  | none => []
  | some d =>
    (d.emergencyContactPhones.filterMap (fun p =>
      match p with
      | some s => if s = "" then none else some s
      | none => none))
      ++ (match d.emergencyContact with
          | some s => if s = "" then [] else [s]
          | none => [])

/-- The per-contact SMS / WhatsApp loop of `notifyContacts`: each SMS send is
wrapped in its own try/catch that logs the error; each WhatsApp send is wrapped
in a try/catch that swallows the error. No failure escapes the loop. -/
def smsLogs (env : NotifyEnv) (contacts : List String) : List String :=
  contacts.flatMap (fun dst =>
    (match env.sendSMS dst with
     | .ok _ => []
     | .error e => ["Twilio SMS error for " ++ dst ++ ": " ++ e])
    ++ (if truthyStr env.whatsappFrom then
          match env.sendWhatsApp dst with
          | .ok _ => []
          | .error _ => []
        else []))

/-- The voice-call step of `notifyContacts`: attempted only for a truthy
service number and wrapped in a try/catch that logs the error. -/
def callLogs (env : NotifyEnv) (num : String) : List String :=
  if num = "" then []
  else
    match env.placeCall num with
    | .ok _ => []
    | .error e => ["Twilio call error to service number " ++ num ++ ": " ++ e]

/-- The simulation fallback of `notifyContacts` (no Twilio configured, or the
Twilio import failed): log the notification and the simulated call. -/
def simulationLogs (contacts : List String) (num : String) : List String :=
  ("Simulated notification to contacts: " ++ String.intercalate ", " contacts)
    :: (if num = "" then [] else ["Simulated call to service number: " ++ num])

/-- Body of `notifyContacts` up to its outer try/catch; an `Except.error`
result is an exception escaping to the outer catch. The only awaited call not
wrapped in an inner catch is `User.findById`; the whole Twilio block is
additionally guarded by the catch that falls back to simulation. -/
def notifyContactsBody (env : NotifyEnv) (alert : Alert) :
    Except String (List String) := do
  let userDoc ← env.findUser alert.user
  let contacts := gatherContacts userDoc
  let num := serviceNumber env alert.ty
  if truthyStr env.twilioSid && truthyStr env.twilioToken
      && truthyStr env.twilioFrom then
    match env.twilioInit with
    | .ok _ => pure (smsLogs env contacts ++ callLogs env num)
    | .error e =>
        pure (("Twilio module not available or failed to init, falling back to simulation: "
          ++ e) :: simulationLogs contacts num)
  else
    pure (simulationLogs contacts num)

/-- Translation of `notifyContacts`: the outer try/catch absorbs any exception
into an error log, so the function always returns normally. -/
def notifyContacts (env : NotifyEnv) (alert : Alert) : List String :=
  match notifyContactsBody env alert with
  | .ok logs => logs
  | .error e => ["notifyContacts error: " ++ e]

/-- Outcome of POST /api/emergency/alert. -/
inductive HttpCreateRes
  | invalidReq
  | duplicateActive
  | created (alert : Alert)
deriving DecidableEq, Repr

/-- Translation of POST /api/emergency/alert: validate, run the `recentAlert`
duplicate check, persist the alert, and fire-and-forget `notifyContacts`
(whose logs are returned but never influence the HTTP outcome). `now` is
`Date.now()` and `newId` the id mongo assigns the new document. -/
def createAlertHttp (env : NotifyEnv) (db : AlertDb) (uid : Nat) (req : CreateReq)
    (now newId : Nat) : HttpCreateRes × AlertDb × List String :=
  if !(validCreateReq req) then (.invalidReq, db, [])
  else if (db.find? (isRecentActive uid now)).isSome then (.duplicateActive, db, [])
  else
    let alert := mkAlert newId uid req now (jsOrStr req.severity "medium")
    (.created alert, db ++ [alert], notifyContacts env alert)

/-- Translation of the `scheduleAutoResolve` timer callback. The callback
closes over the document instance (`this`) that was live when the timer was
scheduled; at fire time it checks that captured copy and, if it still reads
`active`, saves its three modified paths (`status`, `autoResolved`,
`resolvedAt`) over the persisted record with the same id. -/
def autoResolveTimerFire (snapshot : Alert) (db : AlertDb) (fireTime : Nat) :
    AlertDb :=
  if snapshot.status == AlertStatus.active then
    updateAlert db snapshot.id (fun a =>
      { a with status := .resolved, autoResolved := true,
               resolvedAt := some fireTime })
  else db

/-- Outcome of POST /api/emergency/respond/:alertId. -/
inductive RespondRes
  | notFound
  | notActive
  | selfResponse
  | duplicateResponse
  | ok (status : AlertStatus) (respondersCount : Nat)
deriving DecidableEq, Repr

/-- Translation of POST /api/emergency/respond/:alertId. Guard order follows
the source: not-found, then `status !== "active"`, then self-response, then
the `existingResponse` duplicate check; on success the responder is appended,
the status transitions to `responded` if still `active`, and a 50-point
`emergency_response` reward is saved. -/
def respondHttp (s : St) (alertId uid : Nat) (message : Option String)
    (estimatedArrival : Option Nat) : RespondRes × St :=
  match findAlert s.alerts alertId with
  | none => (.notFound, s)
  | some alert =>
    if alert.status != AlertStatus.active then (.notActive, s)
    else if alert.user == uid then (.selfResponse, s)
    else if (alert.responders.find? (fun r => r.user == uid)).isSome then
      (.duplicateResponse, s)
    else
      let resp : Responder :=
        { user := uid, message := some (jsOrStr message "On my way to help"),
          estimatedArrival := some (jsOrNat estimatedArrival 10) }
      let a1 := { alert with responders := alert.responders ++ [resp] }
      let a2 := if a1.status == AlertStatus.active
                then { a1 with status := .responded } else a1
      let reward : Reward :=
        { user := uid, activityType := "emergency_response", points := 50,
          relatedActivity := alertId }
      (.ok a2.status a2.responders.length,
       { alerts := updateAlert s.alerts alertId (fun _ => a2),
         rewards := s.rewards ++ [reward] })

/-- Outcome of the socket `emergency-response` handler. -/
inductive SocketRespondRes
  | errorRes
  | sent (alertId points : Nat)
deriving DecidableEq, Repr

/-- Translation of `socket.on("emergency-response")`: single guard
`!alert || alert.status !== "active"`; no self-response and no duplicate
check; on success the responder is appended (raw message / eta), the status
transitions to `responded`, and a 50-point reward is saved. -/
def respondSocket (s : St) (alertId uid : Nat) (message : Option String)
    (estimatedArrival : Option Nat) : SocketRespondRes × St :=
  match findAlert s.alerts alertId with
  | none => (.errorRes, s)
  | some alert =>
    if alert.status != AlertStatus.active then (.errorRes, s)
    else
      let resp : Responder :=
        { user := uid, message := message, estimatedArrival := estimatedArrival }
      let a1 := { alert with responders := alert.responders ++ [resp] }
      let a2 := if a1.status == AlertStatus.active
                then { a1 with status := .responded } else a1
      let reward : Reward :=
        { user := uid, activityType := "emergency_response", points := 50,
          relatedActivity := alertId }
      (.sent alertId 50,
       { alerts := updateAlert s.alerts alertId (fun _ => a2),
         rewards := s.rewards ++ [reward] })

/-- Outcome of PUT /api/emergency/resolve/:alertId. -/
inductive ResolveRes
  | notFound
  | notAuthorized
  | alreadyResolved
  | ok (status : AlertStatus) (resolvedAt : Nat)
deriving DecidableEq, Repr

/-- Translation of PUT /api/emergency/resolve/:alertId: not-found, then the
creator-or-responder authorization check, then the `status === "resolved"`
check; on success status, `resolvedAt` and `resolvedBy` are written. Note the
source stores no timer handle, so no timer is cancelled here. -/
def resolveHttp (db : AlertDb) (alertId uid now : Nat) : ResolveRes × AlertDb :=
  match findAlert db alertId with
  | none => (.notFound, db)
  | some alert =>
    if !(alert.user == uid || alert.responders.any (fun r => r.user == uid)) then
      (.notAuthorized, db)
    else if alert.status == AlertStatus.resolved then (.alreadyResolved, db)
    else
      let a2 := { alert with
        status := AlertStatus.resolved,
        resolvedAt := some now,
        resolvedBy := some uid }
      (.ok a2.status now, updateAlert db alertId (fun _ => a2))

/-- A user document, restricted to the fields the nearby query and the socket
fan-out read (`currentLocation.coordinates = [lon, lat]`). -/
structure RUser where
  id : Nat
  isOnline : Bool
  lon : ℚ
  lat : ℚ
deriving DecidableEq, Repr

/-- Ascending-distance order to the query point under the collaborator
distance function `dist lonA latA lonB latB`. -/
def nearOrder (dist : ℚ → ℚ → ℚ → ℚ → ℚ) (lon lat : ℚ) (a b : RUser) : Prop :=
  dist a.lon a.lat lon lat ≤ dist b.lon b.lat lon lat

instance instDecNearOrder (dist : ℚ → ℚ → ℚ → ℚ → ℚ) (lon lat : ℚ) :
    DecidableRel (nearOrder dist lon lat) :=
  fun a b =>
    inferInstanceAs (Decidable (dist a.lon a.lat lon lat ≤ dist b.lon b.lat lon lat))

instance instTotalNearOrder (dist : ℚ → ℚ → ℚ → ℚ → ℚ) (lon lat : ℚ) :
    IsTotal RUser (nearOrder dist lon lat) :=
  ⟨fun x y => le_total (dist x.lon x.lat lon lat) (dist y.lon y.lat lon lat)⟩

instance instTransNearOrder (dist : ℚ → ℚ → ℚ → ℚ → ℚ) (lon lat : ℚ) :
    IsTrans RUser (nearOrder dist lon lat) :=
  ⟨fun _ _ _ hab hbc => le_trans hab hbc⟩

/-- Translation of `userSchema.statics.findNearby(longitude, latitude,
maxDistance, options)`. The `isOnline` filter (applied unless
`options.includeOffline === true`) is from the source. The `$near` behaviour
of the persistence collaborator is modelled from the spec (section 4.2 and
section 6): documents whose distance to the point under the collaborator
distance function `dist` is at most `maxDistance`, ascending by that
distance. -/
def findNearby (dist : ℚ → ℚ → ℚ → ℚ → ℚ) (users : List RUser)
    (longitude latitude maxDistance : ℚ) (includeOffline : Bool) : List RUser :=
  List.insertionSort (nearOrder dist longitude latitude)
    (users.filter (fun u => (includeOffline || u.isOnline)
      && decide (dist u.lon u.lat longitude latitude ≤ maxDistance)))

/-- Translation of GET /api/auth/nearby-users: run `findNearby`, then filter
out the requesting user. -/
def nearbyUsersRoute (dist : ℚ → ℚ → ℚ → ℚ → ℚ) (users : List RUser)
    (longitude latitude radius : ℚ) (includeOffline : Bool)
    (requesterId : Nat) : List RUser :=
  (findNearby dist users longitude latitude radius includeOffline).filter
    (fun u => u.id != requesterId)

/-- State read by the socket `emergency-alert` handler: the user collection,
the keys of the in-memory `connectedUsers` map, and the alerts collection. -/
structure SocketSt where
  users : List RUser
  connected : List Nat
  alerts : AlertDb

/-- The fan-out loop of `socket.on("emergency-alert")`: one push per nearby
user that has a live connection and is not the reporter, keyed here as the
pair (alertId, candidateId). -/
def fanout (connected : List Nat) (reporterId alertId : Nat)
    (nearby : List RUser) : List (Nat × Nat) :=
  (nearby.filter (fun u => connected.contains u.id && u.id != reporterId)).map
    (fun u => (alertId, u.id))

/-- Result of the socket `emergency-alert` handler: the new alerts collection,
the pushes delivered, and the `emergency-alert-sent` acknowledgment. -/
structure SocketCreateOut where
  alerts : AlertDb
  pushes : List (Nat × Nat)
  ackAlertId : Nat
  ackNotifiedUsers : Nat

/-- Translation of `socket.on("emergency-alert")`: build and save the alert
(no duplicate-active check on this path), query nearby online users within
10 km, push to connected non-reporter candidates, and acknowledge with
`notifiedUsers = nearbyUsers.length`. -/
def emergencyAlertSocket (dist : ℚ → ℚ → ℚ → ℚ → ℚ) (st : SocketSt) (uid : Nat)
    (req : CreateReq) (now newId : Nat) : SocketCreateOut :=
  let emergency := mkAlert newId uid req now (jsOrStr req.severity "medium")
  let nearby := findNearby dist st.users req.longitude req.latitude 10000 false
  { alerts := st.alerts ++ [emergency],
    pushes := fanout st.connected uid newId nearby,
    ackAlertId := newId,
    ackNotifiedUsers := nearby.length }

/-- Status of the alert with a given id, as stored. -/
def statusOf (s : St) (alertId : Nat) : Option AlertStatus :=
  (findAlert s.alerts alertId).map (fun a => a.status)

/-- Number of `emergency_response` reward grants recorded for an alert. -/
def grantCount (s : St) (alertId : Nat) : Nat :=
  (s.rewards.filter (fun r =>
    r.relatedActivity == alertId && r.activityType == "emergency_response")).length

/-- A Respond call through either entry point. -/
inductive RespondCall
  | http (alertId uid : Nat) (message : Option String) (eta : Option Nat)
  | sock (alertId uid : Nat) (message : Option String) (eta : Option Nat)

/-- State effect of one Respond call. -/
def applyRespond (s : St) : RespondCall → St
  | .http a u m e => (respondHttp s a u m e).2
  | .sock a u m e => (respondSocket s a u m e).2

/-- State effect of a sequence of Respond calls. -/
def runResponds (s : St) : List RespondCall → St
  | [] => s
  | c :: rest => runResponds (applyRespond s c) rest

/-- Any operation that touches the alerts collection. -/
inductive AlertOp
  | createH (env : NotifyEnv) (uid : Nat) (req : CreateReq) (now newId : Nat)
  | createS (uid : Nat) (req : CreateReq) (now newId : Nat)
  | respondH (alertId uid : Nat) (message : Option String) (eta : Option Nat)
  | respondS (alertId uid : Nat) (message : Option String) (eta : Option Nat)
  | resolveH (alertId uid now : Nat)
  | timerFire (snapshot : Alert) (fireTime : Nat)

/-- State effect of one operation. The socket create is applied through
`emergencyAlertSocket` with the ambient user / connection state irrelevant to
the alerts collection. -/
def applyOp (s : St) : AlertOp → St
  | .createH env uid req now newId =>
      { s with alerts := (createAlertHttp env s.alerts uid req now newId).2.1 }
  | .createS uid req now newId =>
      { s with alerts :=
          (emergencyAlertSocket (fun _ _ _ _ => 0) ⟨[], [], s.alerts⟩ uid req now newId).alerts }
  | .respondH a u m e => (respondHttp s a u m e).2
  | .respondS a u m e => (respondSocket s a u m e).2
  | .resolveH a u now => { s with alerts := (resolveHttp s.alerts a u now).2 }
  | .timerFire snap t => { s with alerts := autoResolveTimerFire snap s.alerts t }

/-- State effect of a sequence of operations. -/
def runOps (s : St) : List AlertOp → St
  | [] => s
  | op :: rest => runOps (applyOp s op) rest

/-- The document written over the record by a successful HTTP respond
(responder appended with defaulted message and eta, status `responded`). -/
def respondedAlertHttp (alert : Alert) (uid : Nat) (m : Option String)
    (e : Option Nat) : Alert :=
  { alert with
    responders := alert.responders ++
      [{ user := uid, message := some (jsOrStr m "On my way to help"),
         estimatedArrival := some (jsOrNat e 10) }],
    status := AlertStatus.responded }

/-- The document written over the record by a successful socket respond. -/
def respondedAlertSocket (alert : Alert) (uid : Nat) (m : Option String)
    (e : Option Nat) : Alert :=
  { alert with
    responders := alert.responders ++
      [{ user := uid, message := m, estimatedArrival := e }],
    status := AlertStatus.responded }

/-- The document written over the record by a successful resolve. -/
def resolvedAlert (alert : Alert) (uid now : Nat) : Alert :=
  { alert with
    status := AlertStatus.resolved,
    resolvedAt := some now,
    resolvedBy := some uid }

/-- The reward row saved by either respond handler. -/
def responseReward (uid aid : Nat) : Reward :=
  { user := uid, activityType := "emergency_response", points := 50,
    relatedActivity := aid }

/-- Invariant tying the granted rewards of an alert to its status: either the
alert is still `active` with no `emergency_response` grant, or it is
`responded` with exactly one. -/
def FirstGrantInv (s : St) (aid : Nat) : Prop :=
  (statusOf s aid = some AlertStatus.active ∧ grantCount s aid = 0) ∨
  (statusOf s aid = some AlertStatus.responded ∧ grantCount s aid = 1)

/-- Per-alert responder-list invariant: no duplicate responder id, and an
`active` alert has an empty responder list. -/
def RespondersOk (a : Alert) : Prop :=
  (a.responders.map (fun r => r.user)).Nodup ∧
  (a.status = AlertStatus.active → a.responders = [])

/-- Collection-wide responder invariant. -/
def RespInv (db : AlertDb) : Prop := ∀ a ∈ db, RespondersOk a

instance instDecRespondersOk (a : Alert) : Decidable (RespondersOk a) := by
  unfold RespondersOk
  infer_instance

instance instDecRespInv (db : AlertDb) : Decidable (RespInv db) := by
  unfold RespInv
  exact List.decidableBAll _ db

/-- Sample notification environment in which every external call fails. -/
def envAllFail : NotifyEnv where
  findUser := fun _ => .error "database unreachable"
  twilioSid := some "sid"
  twilioToken := some "token"
  twilioFrom := some "+15550100"
  whatsappFrom := some "+15550101"
  twilioInit := .ok ()
  sendSMS := fun _ => .error "gateway unreachable"
  sendWhatsApp := fun _ => .error "gateway unreachable"
  placeCall := fun _ => .error "gateway unreachable"
  accidentServiceNumber := none
  breakdownServiceNumber := none
  towingNumber := none
  medicalServiceNumber := none
  fireServiceNumber := none

/-- Sample valid create request (a medical alert at 13 N, 78 E; integer
coordinates keep kernel evaluation of the rationals cheap). -/
def reqMedical : CreateReq :=
  { ty := "medical", severity := none, latitude := 13,
    longitude := 78, address := none, description := none }

/-- Zero distance function, for concrete instances where every user is in
range of every point. -/
def distZero : ℚ → ℚ → ℚ → ℚ → ℚ := fun _ _ _ _ => 0

/-- Sample alert: reporter 1 created a medical alert with id 1 at time 0. -/
def alertActive : Alert := mkAlert 1 1 reqMedical 0 "medium"

/-- Sample backend state holding only `alertActive` and no rewards. -/
def stActive : St := ⟨[alertActive], []⟩

/-- Sample user documents at the location of `reqMedical`. -/
def user1 : RUser := ⟨1, true, 78, 13⟩

/-- Second sample user document, online at the same location. -/
def user2 : RUser := ⟨2, true, 78, 13⟩

theorem findAlert_eq_some (db : AlertDb) (i : Nat) (a : Alert)
    (h : findAlert db i = some a) : a ∈ db ∧ a.id = i := by
  refine ⟨List.mem_of_find?_eq_some h, ?_⟩
  have := List.find?_some h
  simpa using this

theorem findAlert_updateAlert_self (db : AlertDb) (i : Nat) (f : Alert → Alert)
    (hf : ∀ a : Alert, a.id = i → (f a).id = i) :
    findAlert (updateAlert db i f) i = (findAlert db i).map f := by
  induction db with
  | nil => rfl
  | cons a t ih =>
    by_cases h : a.id = i
    · have h1 : updateAlert (a :: t) i f = f a :: updateAlert t i f := by
        simp [updateAlert, h]
      rw [h1, findAlert, List.find?_cons_of_pos _ (by simp [hf a h]),
          findAlert, List.find?_cons_of_pos _ (by simp [h])]
      rfl
    · have h1 : updateAlert (a :: t) i f = a :: updateAlert t i f := by
        simp [updateAlert, h]
      rw [h1, findAlert, List.find?_cons_of_neg _ (by simp [h]),
          findAlert, List.find?_cons_of_neg _ (by simp [h])]
      exact ih

theorem findAlert_updateAlert_ne (db : AlertDb) (i j : Nat) (f : Alert → Alert)
    (hne : j ≠ i) (hf : ∀ a : Alert, a.id = i → (f a).id = i) :
    findAlert (updateAlert db i f) j = findAlert db j := by
  induction db with
  | nil => rfl
  | cons a t ih =>
    by_cases h : a.id = i
    · have h1 : updateAlert (a :: t) i f = f a :: updateAlert t i f := by
        simp [updateAlert, h]
      have h2 : (f a).id ≠ j := by rw [hf a h]; exact fun hc => hne hc.symm
      have h3 : a.id ≠ j := by rw [h]; exact fun hc => hne hc.symm
      rw [h1, findAlert, List.find?_cons_of_neg _ (by simp [h2]),
          findAlert, List.find?_cons_of_neg _ (by simp [h3])]
      exact ih
    · have h1 : updateAlert (a :: t) i f = a :: updateAlert t i f := by
        simp [updateAlert, h]
      by_cases hj : a.id = j
      · rw [h1, findAlert, List.find?_cons_of_pos _ (by simp [hj]),
            findAlert, List.find?_cons_of_pos _ (by simp [hj])]
      · rw [h1, findAlert, List.find?_cons_of_neg _ (by simp [hj]),
            findAlert, List.find?_cons_of_neg _ (by simp [hj])]
        exact ih

theorem mem_updateAlert (db : AlertDb) (i : Nat) (f : Alert → Alert) (x : Alert)
    (hx : x ∈ updateAlert db i f) : ∃ a ∈ db, x = a ∨ x = f a := by
  rcases List.mem_map.mp hx with ⟨a, ha, hax⟩
  by_cases h : a.id = i
  · exact ⟨a, ha, Or.inr (by simpa [h] using hax.symm)⟩
  · exact ⟨a, ha, Or.inl (by simpa [h] using hax.symm)⟩

theorem respondHttp_notFound (s : St) (aid uid : Nat) (m : Option String)
    (e : Option Nat) (hf : findAlert s.alerts aid = none) :
    respondHttp s aid uid m e = (.notFound, s) := by
  simp [respondHttp, hf]

theorem respondHttp_notActive (s : St) (aid uid : Nat) (m : Option String)
    (e : Option Nat) (alert : Alert) (hf : findAlert s.alerts aid = some alert)
    (hst : alert.status ≠ AlertStatus.active) :
    respondHttp s aid uid m e = (.notActive, s) := by
  simp [respondHttp, hf, hst]

theorem respondHttp_selfResponse (s : St) (aid uid : Nat) (m : Option String)
    (e : Option Nat) (alert : Alert) (hf : findAlert s.alerts aid = some alert)
    (hst : alert.status = AlertStatus.active) (hu : alert.user = uid) :
    respondHttp s aid uid m e = (.selfResponse, s) := by
  simp [respondHttp, hf, hst, hu]

theorem respondHttp_duplicate (s : St) (aid uid : Nat) (m : Option String)
    (e : Option Nat) (alert : Alert) (hf : findAlert s.alerts aid = some alert)
    (hst : alert.status = AlertStatus.active) (hu : alert.user ≠ uid)
    (hdup : (alert.responders.find? (fun r => r.user == uid)).isSome) :
    respondHttp s aid uid m e = (.duplicateResponse, s) := by
  simp [respondHttp, hf, hst, hu, hdup]

theorem respondHttp_success (s : St) (aid uid : Nat) (m : Option String)
    (e : Option Nat) (alert : Alert) (hf : findAlert s.alerts aid = some alert)
    (hst : alert.status = AlertStatus.active) (hu : alert.user ≠ uid)
    (hdup : alert.responders.find? (fun r => r.user == uid) = none) :
    respondHttp s aid uid m e =
      (.ok AlertStatus.responded (alert.responders.length + 1),
       ⟨updateAlert s.alerts aid (fun _ => respondedAlertHttp alert uid m e),
        s.rewards ++ [responseReward uid aid]⟩) := by
  simp [respondHttp, hf, hst, hu, hdup, respondedAlertHttp, responseReward]

theorem respondSocket_error (s : St) (aid uid : Nat) (m : Option String)
    (e : Option Nat)
    (h : findAlert s.alerts aid = none ∨
      ∃ alert, findAlert s.alerts aid = some alert ∧
        alert.status ≠ AlertStatus.active) :
    respondSocket s aid uid m e = (.errorRes, s) := by
  rcases h with hf | ⟨alert, hf, hst⟩
  · simp [respondSocket, hf]
  · simp [respondSocket, hf, hst]

theorem respondSocket_success (s : St) (aid uid : Nat) (m : Option String)
    (e : Option Nat) (alert : Alert) (hf : findAlert s.alerts aid = some alert)
    (hst : alert.status = AlertStatus.active) :
    respondSocket s aid uid m e =
      (.sent aid 50,
       ⟨updateAlert s.alerts aid (fun _ => respondedAlertSocket alert uid m e),
        s.rewards ++ [responseReward uid aid]⟩) := by
  simp [respondSocket, hf, hst, respondedAlertSocket, responseReward]

theorem grantCount_append_reward (alerts : AlertDb) (rewards : List Reward)
    (uid aid tid : Nat) :
    grantCount ⟨alerts, rewards ++ [responseReward uid aid]⟩ tid =
      grantCount ⟨alerts, rewards⟩ tid + (if aid = tid then 1 else 0) := by
  by_cases h : aid = tid <;>
    simp [grantCount, responseReward, List.filter_append, h]

theorem firstGrantInv_write (s : St) (tid aid uid : Nat) (alert doc : Alert)
    (hf : findAlert s.alerts aid = some alert)
    (hst : alert.status = AlertStatus.active)
    (hdocid : doc.id = alert.id)
    (hdocst : doc.status = AlertStatus.responded)
    (h : FirstGrantInv s tid) :
    FirstGrantInv ⟨updateAlert s.alerts aid (fun _ => doc),
      s.rewards ++ [responseReward uid aid]⟩ tid := by
  have hid : alert.id = aid := (findAlert_eq_some _ _ _ hf).2
  have hfid : ∀ a : Alert, a.id = aid → ((fun _ => doc) a).id = aid := by
    intro a _
    simpa [hdocid] using hid
  by_cases hta : aid = tid
  · subst hta
    have hcur : statusOf s aid = some AlertStatus.active := by
      simp [statusOf, hf, hst]
    have hc0 : grantCount s aid = 0 := by
      rcases h with ⟨_, h0⟩ | ⟨hstat, _⟩
      · exact h0
      · exact absurd (hcur.symm.trans hstat) (by simp)
    refine Or.inr ⟨?_, ?_⟩
    · show statusOf _ aid = some AlertStatus.responded
      simp [statusOf, findAlert_updateAlert_self s.alerts aid _ hfid, hf, hdocst]
    · rw [grantCount_append_reward (updateAlert s.alerts aid (fun _ => doc))
        s.rewards uid aid aid]
      have hc0x : grantCount
          ⟨updateAlert s.alerts aid (fun _ => doc), s.rewards⟩ aid = 0 := by
        simpa [grantCount] using hc0
      rw [if_pos rfl, hc0x]
  · have hne : tid ≠ aid := fun hc => hta hc.symm
    have hstat :
        statusOf ⟨updateAlert s.alerts aid (fun _ => doc),
          s.rewards ++ [responseReward uid aid]⟩ tid = statusOf s tid := by
      simp [statusOf, findAlert_updateAlert_ne s.alerts aid tid _ hne hfid]
    have hcnt :
        grantCount ⟨updateAlert s.alerts aid (fun _ => doc),
          s.rewards ++ [responseReward uid aid]⟩ tid = grantCount s tid := by
      have := grantCount_append_reward (updateAlert s.alerts aid (fun _ => doc))
        s.rewards uid aid tid
      simp only [if_neg hta] at this
      simpa [grantCount] using this
    rcases h with ⟨h1, h2⟩ | ⟨h1, h2⟩
    · exact Or.inl ⟨hstat.trans h1, hcnt.trans h2⟩
    · exact Or.inr ⟨hstat.trans h1, hcnt.trans h2⟩

theorem firstGrantInv_applyRespond (s : St) (tid : Nat) (c : RespondCall)
    (h : FirstGrantInv s tid) : FirstGrantInv (applyRespond s c) tid := by
  cases c with
  | http aid uid m e =>
    show FirstGrantInv (respondHttp s aid uid m e).2 tid
    cases hf : findAlert s.alerts aid with
    | none => rw [respondHttp_notFound s aid uid m e hf]; exact h
    | some alert =>
      by_cases hst : alert.status = AlertStatus.active
      · by_cases hu : alert.user = uid
        · rw [respondHttp_selfResponse s aid uid m e alert hf hst hu]; exact h
        · cases hdup : alert.responders.find? (fun r => r.user == uid) with
          | some r =>
            rw [respondHttp_duplicate s aid uid m e alert hf hst hu
              (by simp [hdup])]
            exact h
          | none =>
            rw [respondHttp_success s aid uid m e alert hf hst hu hdup]
            exact firstGrantInv_write s tid aid uid alert _ hf hst rfl rfl h
      · rw [respondHttp_notActive s aid uid m e alert hf hst]; exact h
  | sock aid uid m e =>
    show FirstGrantInv (respondSocket s aid uid m e).2 tid
    cases hf : findAlert s.alerts aid with
    | none => rw [respondSocket_error s aid uid m e (Or.inl hf)]; exact h
    | some alert =>
      by_cases hst : alert.status = AlertStatus.active
      · rw [respondSocket_success s aid uid m e alert hf hst]
        exact firstGrantInv_write s tid aid uid alert _ hf hst rfl rfl h
      · rw [respondSocket_error s aid uid m e (Or.inr ⟨alert, hf, hst⟩)]; exact h

theorem firstGrantInv_runResponds (s : St) (tid : Nat) (calls : List RespondCall)
    (h : FirstGrantInv s tid) : FirstGrantInv (runResponds s calls) tid := by
  induction calls generalizing s with
  | nil => exact h
  | cons c rest ih => exact ih _ (firstGrantInv_applyRespond s tid c h)

/-- C4: starting from a state in which alert `aid` is `active` and carries no
`emergency_response` grant, any sequence of Respond calls (HTTP or socket)
leaves the alert either untouched (`active`, zero grants) or responded with
exactly one grant: the first successful respond takes the `active → responded`
edge and saves the single reward, and no later respond can succeed again,
because every respond handler requires status `active`. -/
theorem first_respond_single_grant (calls : List RespondCall) (s : St)
    (aid : Nat) (hactive : statusOf s aid = some AlertStatus.active)
    (hzero : grantCount s aid = 0) :
    (statusOf (runResponds s calls) aid = some AlertStatus.responded ∧
      grantCount (runResponds s calls) aid = 1) ∨
    (statusOf (runResponds s calls) aid = some AlertStatus.active ∧
      grantCount (runResponds s calls) aid = 0) := by
  rcases firstGrantInv_runResponds s aid calls (Or.inl ⟨hactive, hzero⟩) with
    h | h
  · exact Or.inr h
  · exact Or.inl h

/-- Witness for C4 at a concrete input: alert 1 is active with no grant;
after responder 2 responds over HTTP, responder 3 over HTTP and responder 4
over the socket, the alert is responded with exactly one grant (or untouched,
per the disjunction; evaluation picks the first disjunct). -/
theorem first_respond_single_grant_witness :
    (statusOf (runResponds stActive
        [.http 1 2 none none, .http 1 3 none none, .sock 1 4 none none]) 1 =
          some AlertStatus.responded ∧
      grantCount (runResponds stActive
        [.http 1 2 none none, .http 1 3 none none, .sock 1 4 none none]) 1 = 1) ∨
    (statusOf (runResponds stActive
        [.http 1 2 none none, .http 1 3 none none, .sock 1 4 none none]) 1 =
          some AlertStatus.active ∧
      grantCount (runResponds stActive
        [.http 1 2 none none, .http 1 3 none none, .sock 1 4 none none]) 1 = 0) :=
  first_respond_single_grant
    [.http 1 2 none none, .http 1 3 none none, .sock 1 4 none none]
    stActive 1 (by decide) (by decide)

/-- C3 counterexample: after responder 2 responds to the active alert 1, the
alert has status `responded`, reporter 1 and responder list `[2]`; a Respond
by user 3 (neither reporter nor listed responder) is then rejected with the
not-active error and changes nothing, contradicting the claim that it
succeeds and appends. -/
theorem respond_on_responded_alert_is_rejected :
    statusOf (respondHttp stActive 1 2 none none).2 1 =
        some AlertStatus.responded ∧
    (findAlert (respondHttp stActive 1 2 none none).2.alerts 1).map
        (fun a => (a.user, a.responders.map (fun r => r.user))) =
      some (1, [2]) ∧
    respondHttp (respondHttp stActive 1 2 none none).2 1 3 none none =
      (.notActive, (respondHttp stActive 1 2 none none).2) := by
  refine ⟨by decide, by decide, by decide⟩

/-- C3 amended: a Respond on an alert whose status is `responded` is rejected
on both entry points — with the not-active error, the state unchanged — for
every caller, including users who are neither the reporter nor listed
responders. -/
theorem respond_requires_active_status (s : St) (aid uid : Nat)
    (m : Option String) (e : Option Nat) (alert : Alert)
    (hf : findAlert s.alerts aid = some alert)
    (hst : alert.status = AlertStatus.responded) :
    respondHttp s aid uid m e = (.notActive, s) ∧
    respondSocket s aid uid m e = (.errorRes, s) :=
  ⟨respondHttp_notActive s aid uid m e alert hf (by simp [hst]),
   respondSocket_error s aid uid m e (Or.inr ⟨alert, hf, by simp [hst]⟩)⟩

/-- Witness for the amended C3 at a concrete input. -/
theorem respond_requires_active_status_witness :
    respondHttp (respondHttp stActive 1 2 none none).2 1 3 none none =
      (.notActive, (respondHttp stActive 1 2 none none).2) ∧
    respondSocket (respondHttp stActive 1 2 none none).2 1 3 none none =
      (.errorRes, (respondHttp stActive 1 2 none none).2) :=
  respond_requires_active_status (respondHttp stActive 1 2 none none).2 1 3
    none none (respondedAlertHttp alertActive 2 none none) (by decide)
    (by decide)

theorem resolveHttp_notFound (db : AlertDb) (aid uid now : Nat)
    (hf : findAlert db aid = none) :
    resolveHttp db aid uid now = (.notFound, db) := by
  simp [resolveHttp, hf]

theorem resolveHttp_notAuthorized (db : AlertDb) (aid uid now : Nat)
    (alert : Alert) (hf : findAlert db aid = some alert)
    (hauth : (alert.user == uid
      || alert.responders.any (fun r => r.user == uid)) = false) :
    resolveHttp db aid uid now = (.notAuthorized, db) := by
  simp [resolveHttp, hf, hauth]

theorem resolveHttp_alreadyResolved (db : AlertDb) (aid uid now : Nat)
    (alert : Alert) (hf : findAlert db aid = some alert)
    (hauth : (alert.user == uid
      || alert.responders.any (fun r => r.user == uid)) = true)
    (hst : alert.status = AlertStatus.resolved) :
    resolveHttp db aid uid now = (.alreadyResolved, db) := by
  simp [resolveHttp, hf, hauth, hst]

theorem resolveHttp_success (db : AlertDb) (aid uid now : Nat)
    (alert : Alert) (hf : findAlert db aid = some alert)
    (hauth : (alert.user == uid
      || alert.responders.any (fun r => r.user == uid)) = true)
    (hst : alert.status ≠ AlertStatus.resolved) :
    resolveHttp db aid uid now =
      (.ok AlertStatus.resolved now,
       updateAlert db aid (fun _ => resolvedAlert alert uid now)) := by
  simp [resolveHttp, hf, hauth, hst, resolvedAlert]

theorem respondersOk_mkAlert (newId uid : Nat) (r : CreateReq) (now : Nat)
    (sev : String) : RespondersOk (mkAlert newId uid r now sev) := by
  exact ⟨by simp [mkAlert], fun _ => rfl⟩

theorem respInv_append_new (db : AlertDb) (a : Alert) (hdb : RespInv db)
    (ha : RespondersOk a) : RespInv (db ++ [a]) := by
  intro x hx
  rcases List.mem_append.mp hx with h | h
  · exact hdb x h
  · have hxa : x = a := List.mem_singleton.mp h
    rw [hxa]
    exact ha

theorem respInv_updateAlert (db : AlertDb) (i : Nat) (f : Alert → Alert)
    (hdb : RespInv db) (hstep : ∀ a ∈ db, RespondersOk a → RespondersOk (f a)) :
    RespInv (updateAlert db i f) := by
  intro x hx
  rcases mem_updateAlert db i f x hx with ⟨a, ha, hcase⟩
  rcases hcase with h1 | h1
  · rw [h1]; exact hdb a ha
  · rw [h1]; exact hstep a ha (hdb a ha)

theorem respondersOk_respondedHttp (alert : Alert) (uid : Nat)
    (m : Option String) (e : Option Nat) (hok : RespondersOk alert)
    (hst : alert.status = AlertStatus.active) :
    RespondersOk (respondedAlertHttp alert uid m e) := by
  have hemp : alert.responders = [] := hok.2 hst
  refine ⟨by simp [respondedAlertHttp, hemp], fun hc => ?_⟩
  simp [respondedAlertHttp] at hc

theorem respondersOk_respondedSocket (alert : Alert) (uid : Nat)
    (m : Option String) (e : Option Nat) (hok : RespondersOk alert)
    (hst : alert.status = AlertStatus.active) :
    RespondersOk (respondedAlertSocket alert uid m e) := by
  have hemp : alert.responders = [] := hok.2 hst
  refine ⟨by simp [respondedAlertSocket, hemp], fun hc => ?_⟩
  simp [respondedAlertSocket] at hc

theorem respondersOk_resolvedAlert (alert : Alert) (uid now : Nat)
    (hok : RespondersOk alert) : RespondersOk (resolvedAlert alert uid now) := by
  refine ⟨by simpa [resolvedAlert] using hok.1, fun hc => ?_⟩
  simp [resolvedAlert] at hc

theorem respondersOk_timerWrite (a : Alert) (t : Nat) (hok : RespondersOk a) :
    RespondersOk
      { a with
        status := AlertStatus.resolved,
        autoResolved := true,
        resolvedAt := some t } := by
  refine ⟨by simpa using hok.1, fun hc => ?_⟩
  simp at hc

theorem createAlertHttp_alerts (env : NotifyEnv) (db : AlertDb) (uid : Nat)
    (req : CreateReq) (now newId : Nat) :
    (createAlertHttp env db uid req now newId).2.1 = db ∨
    (createAlertHttp env db uid req now newId).2.1 =
      db ++ [mkAlert newId uid req now (jsOrStr req.severity "medium")] := by
  unfold createAlertHttp
  by_cases h1 : validCreateReq req
  · by_cases h2 : (db.find? (isRecentActive uid now)).isSome
    · simp [h1, h2]
    · simp [h1, h2]
  · simp [h1]

theorem respInv_applyOp (s : St) (op : AlertOp) (h : RespInv s.alerts) :
    RespInv (applyOp s op).alerts := by
  cases op with
  | createH env uid req now newId =>
    show RespInv (createAlertHttp env s.alerts uid req now newId).2.1
    rcases createAlertHttp_alerts env s.alerts uid req now newId with hc | hc
    · rw [hc]; exact h
    · rw [hc]
      exact respInv_append_new _ _ h (respondersOk_mkAlert _ _ _ _ _)
  | createS uid req now newId =>
    show RespInv (s.alerts ++ [mkAlert newId uid req now (jsOrStr req.severity "medium")])
    exact respInv_append_new _ _ h (respondersOk_mkAlert _ _ _ _ _)
  | respondH aid uid m e =>
    show RespInv (respondHttp s aid uid m e).2.alerts
    cases hf : findAlert s.alerts aid with
    | none => rw [respondHttp_notFound s aid uid m e hf]; exact h
    | some alert =>
      by_cases hst : alert.status = AlertStatus.active
      · by_cases hu : alert.user = uid
        · rw [respondHttp_selfResponse s aid uid m e alert hf hst hu]; exact h
        · cases hdup : alert.responders.find? (fun r => r.user == uid) with
          | some r =>
            rw [respondHttp_duplicate s aid uid m e alert hf hst hu
              (by simp [hdup])]
            exact h
          | none =>
            rw [respondHttp_success s aid uid m e alert hf hst hu hdup]
            have hmem := (findAlert_eq_some _ _ _ hf).1
            exact respInv_updateAlert _ _ _ h (fun a _ _ =>
              respondersOk_respondedHttp alert uid m e (h alert hmem) hst)
      · rw [respondHttp_notActive s aid uid m e alert hf hst]; exact h
  | respondS aid uid m e =>
    show RespInv (respondSocket s aid uid m e).2.alerts
    cases hf : findAlert s.alerts aid with
    | none => rw [respondSocket_error s aid uid m e (Or.inl hf)]; exact h
    | some alert =>
      by_cases hst : alert.status = AlertStatus.active
      · rw [respondSocket_success s aid uid m e alert hf hst]
        have hmem := (findAlert_eq_some _ _ _ hf).1
        exact respInv_updateAlert _ _ _ h (fun a _ _ =>
          respondersOk_respondedSocket alert uid m e (h alert hmem) hst)
      · rw [respondSocket_error s aid uid m e (Or.inr ⟨alert, hf, hst⟩)]; exact h
  | resolveH aid uid now =>
    show RespInv (resolveHttp s.alerts aid uid now).2
    cases hf : findAlert s.alerts aid with
    | none => rw [resolveHttp_notFound s.alerts aid uid now hf]; exact h
    | some alert =>
      cases hauth : (alert.user == uid
          || alert.responders.any (fun r => r.user == uid)) with
      | false =>
        rw [resolveHttp_notAuthorized s.alerts aid uid now alert hf hauth]
        exact h
      | true =>
        by_cases hst : alert.status = AlertStatus.resolved
        · rw [resolveHttp_alreadyResolved s.alerts aid uid now alert hf hauth hst]
          exact h
        · rw [resolveHttp_success s.alerts aid uid now alert hf hauth hst]
          have hmem := (findAlert_eq_some _ _ _ hf).1
          exact respInv_updateAlert _ _ _ h (fun a _ _ =>
            respondersOk_resolvedAlert alert uid now (h alert hmem))
  | timerFire snap t =>
    show RespInv (autoResolveTimerFire snap s.alerts t)
    by_cases hsnap : snap.status = AlertStatus.active
    · have hr : autoResolveTimerFire snap s.alerts t =
          updateAlert s.alerts snap.id (fun a =>
            { a with status := AlertStatus.resolved, autoResolved := true,
                     resolvedAt := some t }) := by
        simp [autoResolveTimerFire, hsnap]
      rw [hr]
      exact respInv_updateAlert _ _ _ h (fun a _ hok =>
        respondersOk_timerWrite a t hok)
    · have hr : autoResolveTimerFire snap s.alerts t = s.alerts := by
        simp [autoResolveTimerFire, hsnap]
      rw [hr]
      exact h

theorem respInv_runOps (s : St) (ops : List AlertOp) (h : RespInv s.alerts) :
    RespInv (runOps s ops).alerts := by
  induction ops generalizing s with
  | nil => exact h
  | cons op rest ih => exact ih _ (respInv_applyOp s op h)

/-- C7 amended: the responder list of every alert never contains two entries
with the same responder id (it stays duplicate-free under every operation
sequence); a second Respond by a user already in the responder list is
rejected and changes nothing, but with the not-active error rather than
DuplicateResponse, because the first successful response already moved the
status off `active` and the status check precedes the duplicate check. -/
theorem responders_nodup_and_second_respond_rejected (ops : List AlertOp)
    (s : St) (hinv : RespInv s.alerts) :
    RespInv (runOps s ops).alerts ∧
    (∀ aid uid m e alert, findAlert s.alerts aid = some alert →
      (alert.responders.any (fun r => r.user == uid)) = true →
      respondHttp s aid uid m e = (.notActive, s) ∧
      respondSocket s aid uid m e = (.errorRes, s)) := by
  refine ⟨respInv_runOps s ops hinv, ?_⟩
  intro aid uid m e alert hf hmem
  have hok := hinv alert (findAlert_eq_some _ _ _ hf).1
  have hne : alert.status ≠ AlertStatus.active := by
    intro hc
    rw [hok.2 hc] at hmem
    simp at hmem
  exact ⟨respondHttp_notActive s aid uid m e alert hf hne,
         respondSocket_error s aid uid m e (Or.inr ⟨alert, hf, hne⟩)⟩

/-- Witness for the amended C7 at a concrete input: after responder 2 responds
to alert 1, the invariant still holds after a further resolve, and a second
respond by user 2 is rejected with the not-active error. -/
theorem responders_nodup_and_second_respond_rejected_witness :
    RespInv (runOps (respondHttp stActive 1 2 none none).2
      [.resolveH 1 1 600000]).alerts ∧
    respondHttp (respondHttp stActive 1 2 none none).2 1 2 none none =
      (.notActive, (respondHttp stActive 1 2 none none).2) := by
  have h := responders_nodup_and_second_respond_rejected [.resolveH 1 1 600000]
    (respondHttp stActive 1 2 none none).2 (by decide)
  exact ⟨h.1, (h.2 1 2 none none (respondedAlertHttp alertActive 2 none none)
    (by decide) (by decide)).1⟩

/-- C7 counterexample: a second Respond by the same user 2 on alert 1 is
indeed rejected, but the error is the not-active error, not
DuplicateResponse as the claim states. -/
theorem second_respond_reports_not_active_not_duplicate :
    (respondHttp (respondHttp stActive 1 2 none none).2 1 2 none none).1 =
      RespondRes.notActive ∧
    (respondHttp (respondHttp stActive 1 2 none none).2 1 2 none none).1 ≠
      RespondRes.duplicateResponse := by
  exact ⟨by decide, by decide⟩

/-- C1 amended: on the HTTP entry point, a CreateAlert by a reporter already
holding an active alert created within the trailing 5-minute window is
rejected with the duplicate-active error and no record is created, whatever
the notification environment; the socket entry point performs no such check
(see the counterexample). -/
theorem http_create_rejects_recent_active_alert (env : NotifyEnv)
    (db : AlertDb) (uid : Nat) (req : CreateReq) (now newId : Nat)
    (hvalid : validCreateReq req = true)
    (hdup : (db.find? (isRecentActive uid now)).isSome) :
    createAlertHttp env db uid req now newId = (.duplicateActive, db, []) := by
  simp [createAlertHttp, hvalid, hdup]

/-- Witness for the amended C1: reporter 1 holds `alertActive` (active, born
at time 0); one minute later the HTTP create is rejected and the collection
is unchanged. -/
theorem http_create_rejects_recent_active_alert_witness :
    createAlertHttp envAllFail [alertActive] 1 reqMedical 60000 2 =
      (.duplicateActive, [alertActive], []) :=
  http_create_rejects_recent_active_alert envAllFail [alertActive] 1 reqMedical
    60000 2 (by decide) (by decide)

/-- C1 counterexample: reporter 1 holds `alertActive` (status active, created
at time 0, one minute old); the socket emergency-alert handler nevertheless
creates a second alert, leaving two active alerts of reporter 1 inside the
5-minute window — the duplicate suppression does not hold on the socket entry
point. -/
theorem socket_create_bypasses_duplicate_suppression :
    ((emergencyAlertSocket distZero ⟨[], [], [alertActive]⟩ 1 reqMedical
        60000 2).alerts.filter (isRecentActive 1 60000)).length = 2 := by
  decide

/-- C2 at the failing input: reporter 1 creates alert 1 at time 0 (the timer
snapshot `alertActive` is the document captured by `scheduleAutoResolve`);
the reporter manually resolves at minute 10, leaving the record resolved with
`resolvedBy = 1`, `resolvedAt = minute 10`, `autoResolved = false`; when the
timer fires at minute 30 its captured copy still reads `active`, so it
overwrites the record: `autoResolved` becomes true and `resolvedAt` becomes
minute 30, contradicting the claim that the firing has no observable
effect. -/
theorem timer_overwrites_manually_resolved_alert :
    (resolveHttp [alertActive] 1 1 600000).1 =
      ResolveRes.ok AlertStatus.resolved 600000 ∧
    (findAlert (resolveHttp [alertActive] 1 1 600000).2 1).map
        (fun a => (a.status, a.autoResolved, a.resolvedAt, a.resolvedBy)) =
      some (AlertStatus.resolved, false, some 600000, some 1) ∧
    (findAlert (autoResolveTimerFire alertActive
        (resolveHttp [alertActive] 1 1 600000).2 1800000) 1).map
        (fun a => (a.status, a.autoResolved, a.resolvedAt, a.resolvedBy)) =
      some (AlertStatus.resolved, true, some 1800000, some 1) := by
  exact ⟨by decide, by decide, by decide⟩

/-- C5 at the failing input: after alert 1 is resolved at minute 5 it is a
concluded alert (`status = resolved`, `autoResolved = false`), yet the
pending auto-resolve timer firing at minute 30 still mutates its fields
(`autoResolved` flips to true), contradicting the invariant that a resolved
alert accepts no further mutation. -/
theorem timer_mutates_concluded_alert :
    (findAlert (resolveHttp [alertActive] 1 1 300000).2 1).map
        (fun a => a.status) = some AlertStatus.resolved ∧
    (findAlert (resolveHttp [alertActive] 1 1 300000).2 1).map
        (fun a => a.autoResolved) = some false ∧
    (findAlert (autoResolveTimerFire alertActive
        (resolveHttp [alertActive] 1 1 300000).2 1800000) 1).map
        (fun a => a.autoResolved) = some true := by
  exact ⟨by decide, by decide, by decide⟩

theorem findNearby_nodup_ids (dist : ℚ → ℚ → ℚ → ℚ → ℚ) (users : List RUser)
    (lon lat r : ℚ) (flag : Bool) (h : (users.map (fun u => u.id)).Nodup) :
    ((findNearby dist users lon lat r flag).map (fun u => u.id)).Nodup := by
  have hsub : List.Sublist
      ((users.filter (fun u => (flag || u.isOnline)
        && decide (dist u.lon u.lat lon lat ≤ r))).map (fun u => u.id))
      (users.map (fun u => u.id)) :=
    (List.filter_sublist users).map _
  have hnd := h.sublist hsub
  have hperm := (List.perm_insertionSort (nearOrder dist lon lat)
    (users.filter (fun u => (flag || u.isOnline)
      && decide (dist u.lon u.lat lon lat ≤ r)))).map (fun u => u.id)
  exact (hperm.nodup_iff).mpr hnd

theorem count_le_one_of_nodup {α : Type} [BEq α] [LawfulBEq α] (l : List α)
    (h : l.Nodup) (x : α) : l.count x ≤ 1 := by
  induction l with
  | nil => simp
  | cons a t ih =>
    have hnd := List.nodup_cons.mp h
    rw [List.count_cons]
    by_cases hx : x = a
    · subst hx
      have h0 : t.count x = 0 := List.count_eq_zero.mpr hnd.1
      simp [h0]
    · have hb : (a == x) = false := beq_false_of_ne (fun hc => hx hc.symm)
      simp only [hb, if_false]
      simpa using ih hnd.2

theorem fanout_count_le_one (connected : List Nat) (rep aid cand : Nat)
    (nearby : List RUser) (h : (nearby.map (fun u => u.id)).Nodup) :
    (fanout connected rep aid nearby).count (aid, cand) ≤ 1 := by
  have hndf : ((nearby.filter (fun u => connected.contains u.id
        && u.id != rep)).map (fun u => u.id)).Nodup :=
    h.sublist ((List.filter_sublist nearby).map _)
  have hinj : Function.Injective (fun i : Nat => (aid, i)) := by
    intro x y hxy
    simpa using congrArg Prod.snd hxy
  have hform : fanout connected rep aid nearby =
      ((nearby.filter (fun u => connected.contains u.id
        && u.id != rep)).map (fun u => u.id)).map (fun i => (aid, i)) := by
    simp [fanout, List.map_map]
  rw [hform]
  exact count_le_one_of_nodup _ (hndf.map hinj) (aid, cand)

/-- C6 amended: a single invocation of the fan-out pushes at most once per
candidate per alert, provided the user collection has no duplicate ids (the
geospatial query then returns each user at most once); there is no
idempotency key in the code, so the at-most-once property is a consequence of
the routine being invoked exactly once per alert, not of any dedup — a
reinvocation doubles the pushes (see the counterexample). -/
theorem single_fanout_at_most_one_push (dist : ℚ → ℚ → ℚ → ℚ → ℚ)
    (users : List RUser) (connected : List Nat)
    (reporterId alertId cand : Nat) (lon lat : ℚ)
    (h : (users.map (fun u => u.id)).Nodup) :
    (fanout connected reporterId alertId
      (findNearby dist users lon lat 10000 false)).count (alertId, cand) ≤ 1 :=
  fanout_count_le_one connected reporterId alertId cand _
    (findNearby_nodup_ids dist users lon lat 10000 false h)

/-- Witness for the amended C6 at a concrete input: one online user within
range, connected; the single fan-out pushes at most once to them. -/
theorem single_fanout_at_most_one_push_witness :
    (fanout [2] 1 5 (findNearby distZero [user2] 78 13 10000 false)).count
      (5, 2) ≤ 1 :=
  single_fanout_at_most_one_push distZero [user2] [2] 1 5 2 78 13 (by decide)

/-- C6 counterexample: the fan-out routine has no dispatch record keyed by
(alertId, candidateId) — invoking it twice for the same alert 5 delivers the
push (5, 2) to the connected candidate 2 twice, contradicting the claimed
at-most-once guarantee under reinvocation. -/
theorem fanout_reinvocation_doubles_push :
    ((fanout [2] 1 5 (findNearby distZero [user2] 78 13 10000 false)) ++
      (fanout [2] 1 5 (findNearby distZero [user2] 78 13 10000 false))).count
      (5, 2) = 2 := by
  decide

/-- C8: the nearby-users route never returns the requesting user, never
returns a user whose distance to the query point under the collaborator
distance function exceeds the radius, and returns a list sorted by
non-decreasing distance. -/
theorem nearby_users_contract (dist : ℚ → ℚ → ℚ → ℚ → ℚ) (users : List RUser)
    (longitude latitude radius : ℚ) (includeOffline : Bool)
    (requesterId : Nat) :
    (∀ u ∈ nearbyUsersRoute dist users longitude latitude radius
        includeOffline requesterId,
      u.id ≠ requesterId ∧ dist u.lon u.lat longitude latitude ≤ radius) ∧
    List.Sorted (nearOrder dist longitude latitude)
      (nearbyUsersRoute dist users longitude latitude radius includeOffline
        requesterId) := by
  constructor
  · intro u hu
    have h1 := List.of_mem_filter hu
    have h2 : u ∈ findNearby dist users longitude latitude radius
        includeOffline := List.mem_of_mem_filter hu
    have h3 : u ∈ users.filter (fun v => (includeOffline || v.isOnline)
        && decide (dist v.lon v.lat longitude latitude ≤ radius)) :=
      (List.perm_insertionSort _ _).subset h2
    have h4 := List.of_mem_filter h3
    refine ⟨by simpa using h1, ?_⟩
    have h5 := (Bool.and_eq_true _ _).mp h4
    simpa using h5.2
  · have hs := List.sorted_insertionSort (nearOrder dist longitude latitude)
      (users.filter (fun v => (includeOffline || v.isOnline)
        && decide (dist v.lon v.lat longitude latitude ≤ radius)))
    exact hs.filter _

/-- Witness for C8 at a concrete input: with two online users and requester 1,
user 2 is returned, is not the requester, is within radius, and the returned
list is sorted by distance. -/
theorem nearby_users_contract_witness :
    (user2.id ≠ 1 ∧ distZero user2.lon user2.lat 78 13 ≤ 10000) ∧
    List.Sorted (nearOrder distZero 78 13)
      (nearbyUsersRoute distZero [user1, user2] 78 13 10000 false 1) :=
  ⟨(nearby_users_contract distZero [user1, user2] 78 13 10000 false 1).1
      user2 (by decide),
   (nearby_users_contract distZero [user1, user2] 78 13 10000 false 1).2⟩

/-- C9: a CreateAlert request that passes validation and duplicate
suppression always succeeds — the alert is persisted and the created response
returned — for every notification environment, in particular ones where the
reporter lookup, the Twilio import, and every SMS, WhatsApp and voice call
fail; the notification path runs fire-and-forget, its errors are absorbed
into logs (`notifyContacts` catches internally and always returns), and never
reach the HTTP outcome. -/
theorem create_alert_succeeds_despite_notification_failures (env : NotifyEnv)
    (db : AlertDb) (uid : Nat) (req : CreateReq) (now newId : Nat)
    (hvalid : validCreateReq req = true)
    (hnodup : db.find? (isRecentActive uid now) = none) :
    (createAlertHttp env db uid req now newId).1 =
      .created (mkAlert newId uid req now (jsOrStr req.severity "medium")) ∧
    (createAlertHttp env db uid req now newId).2.1 =
      db ++ [mkAlert newId uid req now (jsOrStr req.severity "medium")] := by
  constructor <;> simp [createAlertHttp, hvalid, hnodup]

/-- Witness for C9 at a concrete input: in `envAllFail` every external call
fails, yet the create succeeds and persists the alert. -/
theorem create_alert_succeeds_despite_notification_failures_witness :
    (createAlertHttp envAllFail [] 1 reqMedical 0 1).1 =
      .created (mkAlert 1 1 reqMedical 0 (jsOrStr none "medium")) ∧
    (createAlertHttp envAllFail [] 1 reqMedical 0 1).2.1 =
      [mkAlert 1 1 reqMedical 0 (jsOrStr none "medium")] :=
  create_alert_succeeds_despite_notification_failures envAllFail [] 1
    reqMedical 0 1 rfl rfl

/-- C10: the socket acknowledgment reports `notifiedUsers` equal to the
length of the geospatial query result, not the number of pushes delivered;
at the concrete instance with reporter 1 (online, within radius, connected)
and user 2 (online flag set in the store but with no live connection), the
ack reports 2 notified users while 0 pushes are delivered. -/
theorem socket_ack_counts_geo_query_result :
    (∀ (dist : ℚ → ℚ → ℚ → ℚ → ℚ) (st : SocketSt) (uid : Nat)
        (req : CreateReq) (now newId : Nat),
      (emergencyAlertSocket dist st uid req now newId).ackNotifiedUsers =
        (findNearby dist st.users req.longitude req.latitude 10000
          false).length) ∧
    (emergencyAlertSocket distZero ⟨[user1, user2], [1], []⟩ 1 reqMedical 0
      7).ackNotifiedUsers = 2 ∧
    (emergencyAlertSocket distZero ⟨[user1, user2], [1], []⟩ 1 reqMedical 0
      7).pushes.length = 0 := by
  exact ⟨fun dist st uid req now newId => rfl, by decide, by decide⟩

end RiderSathi
